import Mathlib

/-!
Verification of the rate-limiting, pacing and retry core of the
google_twitter_scraper gateway.  Shallow embedding of:

* `api/services/rate_limiter.py` (simple in-memory `RateLimiter.check`)
* `services/rate_limiter.py` (distributed `RateLimiter` with Redis path,
  `safe_execute` reconnecting wrapper and `_in_memory_check` fallback)
* `api/services/google_service.py` (`_acquire_google_search_slot` pacing gate,
  `_search_with_retries` retry loop)
* `api/services/web_service.py` (`summarize_text` retry loop, `scrape_urls`
  batch scraping)

Timestamps are milliseconds as in the code (`int(time.time() * 1000)`),
modelled by `Int`; wall-clock seconds (Python floats used by the pacing gate
and retry delays) are modelled by `Rat`.
-/

/-- The eviction `while` loop of `RateLimiter.check` /
`RateLimiter._in_memory_check`: pop entries from the front of the queue while
`now - queue[0] > windowMs`, stopping at the first entry that is recent
enough. -/
def evictOld (windowMs now : Int) : List Int → List Int
  | [] => []
  | t :: rest => if now - t > windowMs then evictOld windowMs now rest else t :: rest

/-- State of a `RateLimiter` instance: the immutable configuration
`max_requests` / `window_ms` and the mutable in-memory `queue` of admitted
timestamps (milliseconds). -/
structure RateLimiter where
  max_requests : Int
  window_ms : Int
  queue : List Int
deriving Repr, DecidableEq

/-- The rejection message raised by both limiters. -/
def rateLimitMsg : String := "Rate limit exceeded. Please try again later."

/-- `RateLimiter._in_memory_check(now)` of `services/rate_limiter.py`, which is
also the whole body of `RateLimiter.check` in `api/services/rate_limiter.py`
(there `now` is read from the clock):  evict entries older than the window,
then either reject (raise, queue left as evicted) or append `now` and admit.
The returned pair is (state of `self` after the call, raised error if any),
mirroring that the Python method mutates `self.queue` in place even when it
raises. -/
def RateLimiter.in_memory_check (rl : RateLimiter) (now : Int) : RateLimiter × Option String :=
  let q := evictOld rl.window_ms now rl.queue
  if (q.length : Int) ≥ rl.max_requests then
    ({ rl with queue := q }, some rateLimitMsg)
  else
    ({ rl with queue := q ++ [now] }, none)

/-- Iterate `check()` at a list of clock readings; a raise aborts the run
(the caller sees the exception), mirroring a sequence of calls where the
first rejection is propagated. -/
def RateLimiter.checkAll (rl : RateLimiter) : List Int → RateLimiter × Option String
  | [] => (rl, none)
  | t :: ts =>
    match rl.in_memory_check t with
    | (rl', none) => rl'.checkAll ts
    | (rl', some e) => (rl', some e)

theorem evictOld_suffix (windowMs now : Int) (q : List Int) :
    (evictOld windowMs now q) <:+ q := by
  induction q with
  | nil => simp [evictOld]
  | cons t rest ih =>
    simp only [evictOld]
    split
    · exact ih.trans (List.suffix_cons t rest)
    · exact List.suffix_refl _

theorem evictOld_length_le (windowMs now : Int) (q : List Int) :
    (evictOld windowMs now q).length ≤ q.length :=
  (evictOld_suffix windowMs now q).sublist.length_le

theorem evictOld_keep (windowMs now t0 : Int) (rest : List Int)
    (h : now - t0 ≤ windowMs) :
    evictOld windowMs now (t0 :: rest) = t0 :: rest := by
  simp [evictOld, not_lt.mpr h]

theorem evictOld_nil (windowMs now : Int) : evictOld windowMs now [] = [] := rfl

theorem checkAll_append (rl : RateLimiter) (xs ys : List Int) :
    rl.checkAll (xs ++ ys) =
      match rl.checkAll xs with
      | (rl', none) => rl'.checkAll ys
      | (rl', some e) => (rl', some e) := by
  induction xs generalizing rl with
  | nil => simp [RateLimiter.checkAll]
  | cons t xs ih =>
    simp only [List.cons_append, RateLimiter.checkAll]
    cases h : rl.in_memory_check t with
    | mk rl' err =>
      cases err with
      | none => simpa using ih rl'
      | some e => rfl

theorem checkAll_window (M W t0 : Int) (q ts : List Int)
    (hq : ∀ t ∈ q, t0 ≤ t)
    (hts : ∀ t ∈ ts, t0 ≤ t ∧ t - t0 ≤ W)
    (hlen : (q.length : Int) + ts.length ≤ M) :
    RateLimiter.checkAll ⟨M, W, q⟩ ts = (⟨M, W, q ++ ts⟩, none) := by
  induction ts generalizing q with
  | nil => simp [RateLimiter.checkAll]
  | cons t ts ih =>
    have ht0 : t0 ≤ t := (hts t (by simp)).1
    have hevict : evictOld W t q = q := by
      cases q with
      | nil => rfl
      | cons a rest =>
        apply evictOld_keep
        have ha : t0 ≤ a := hq a (by simp)
        have ht := (hts t (by simp)).2
        omega
    have hlt : (q.length : Int) < M := by
      simp only [List.length_cons] at hlen
      push_cast at hlen ⊢
      omega
    have hstep : (⟨M, W, q⟩ : RateLimiter).in_memory_check t = (⟨M, W, q ++ [t]⟩, none) := by
      simp only [RateLimiter.in_memory_check, hevict]
      rw [if_neg (by omega)]
    have hrest := ih (q ++ [t])
      (by
        intro x hx
        rcases List.mem_append.mp hx with h | h
        · exact hq x h
        · simp only [List.mem_singleton] at h
          subst h
          exact ht0)
      (fun x hx => hts x (by simp [hx]))
      (by
        simp only [List.length_append, List.length_singleton, List.length_cons,
          List.length_nil] at hlen ⊢
        push_cast at hlen ⊢
        omega)
    simp only [RateLimiter.checkAll, hstep, hrest, List.append_assoc, List.singleton_append]

/-- C1 (amended): with `maxRequests = M > 0` and `windowMs = W`, starting from
an empty queue, `M` calls whose timestamps all lie within `W` ms of the first
are all admitted; an `(M+1)`th call still within `W` ms of the first raises
the rate-limit error; and a subsequent call made STRICTLY MORE than `W` ms
after the first admitted call is admitted again (the eviction loop removes
entries `t` with `now - t > W`, i.e. entries strictly older than `now - W`,
before capacity is evaluated). -/
theorem C1_window_admission_and_rollover (M W t0 tM tR : Int) (ts : List Int)
    (hM : 0 < M)
    (hlen : (ts.length : Int) = M)
    (hhead : ts.head? = some t0)
    (hts : ∀ t ∈ ts, t0 ≤ t ∧ t - t0 ≤ W)
    (htM : t0 ≤ tM ∧ tM - t0 ≤ W)
    (htR : W < tR - t0) :
    RateLimiter.checkAll ⟨M, W, []⟩ ts = (⟨M, W, ts⟩, none) ∧
    RateLimiter.checkAll ⟨M, W, []⟩ (ts ++ [tM]) = (⟨M, W, ts⟩, some rateLimitMsg) ∧
    ((⟨M, W, ts⟩ : RateLimiter).in_memory_check tR).2 = none := by
  have hA : RateLimiter.checkAll ⟨M, W, []⟩ ts = (⟨M, W, ts⟩, none) := by
    have := checkAll_window M W t0 [] ts (by simp) hts (by simp; omega)
    simpa using this
  refine ⟨hA, ?_, ?_⟩
  · cases ts with
    | nil => simp at hhead
    | cons a rest =>
      have ha : a = t0 := by simpa using hhead
      subst ha
      have hstep2 : (⟨M, W, a :: rest⟩ : RateLimiter).in_memory_check tM =
          (⟨M, W, a :: rest⟩, some rateLimitMsg) := by
        simp only [RateLimiter.in_memory_check, evictOld_keep W tM a rest (by omega)]
        rw [if_pos (by simp only [List.length_cons] at hlen ⊢; omega)]
      rw [checkAll_append, hA]
      simp only [RateLimiter.checkAll, hstep2]
  · cases ts with
    | nil => simp at hhead
    | cons a rest =>
      have ha : a = t0 := by simpa using hhead
      subst ha
      have hgt : tR - a > W := by omega
      have hevict : evictOld W tR (a :: rest) = evictOld W tR rest := by
        simp [evictOld, hgt]
      have hb : (evictOld W tR rest).length ≤ rest.length := evictOld_length_le W tR rest
      simp only [RateLimiter.in_memory_check, hevict]
      rw [if_neg (by simp only [List.length_cons] at hlen; push_cast; omega)]

/-- C1 counterexample to the claim as stated: with `maxRequests = 1`,
`windowMs = 100`, a first call at `t = 0` is admitted, and a second call at
`t = 100` — which is "at least W milliseconds after the first admitted call" —
is REJECTED, because the eviction condition `now - t > windowMs` is strict:
an entry aged exactly `W` ms is kept, so readmission needs strictly more than
`W` ms. -/
theorem C1_counterexample :
    (RateLimiter.checkAll ⟨1, 100, []⟩ [0]).2 = none ∧
    (100 : Int) - 0 ≥ 100 ∧
    ((⟨1, 100, [0]⟩ : RateLimiter).in_memory_check 100).2 = some rateLimitMsg := by
  refine ⟨by decide, by decide, by decide⟩

/-- C1 witness at the spec's own example `M = 3`, `W = 1000`, calls at
`t = 0, 100, 200` admitted, `t = 300` rejected, `t = 1100` admitted again. -/
theorem C1_witness :
    RateLimiter.checkAll ⟨3, 1000, []⟩ [0, 100, 200] = (⟨3, 1000, [0, 100, 200]⟩, none) ∧
    RateLimiter.checkAll ⟨3, 1000, []⟩ ([0, 100, 200] ++ [300]) =
      (⟨3, 1000, [0, 100, 200]⟩, some rateLimitMsg) ∧
    ((⟨3, 1000, [0, 100, 200]⟩ : RateLimiter).in_memory_check 1100).2 = none :=
  C1_window_admission_and_rollover 3 1000 0 300 1100 [0, 100, 200]
    (by decide) (by decide) rfl (by decide) (by decide) (by decide)

/-- C9: invariant of the in-memory limiter.  If the queue is sorted
non-decreasingly, no longer than `maxRequests`, and every entry is at most the
(non-decreasing) current clock value, then after `check()` — admit or reject —
the queue is still sorted and no longer than `maxRequests`; a rejected call
leaves the limiter state unchanged, and an admitted call leaves the queue
equal to the evicted queue with exactly the new timestamp appended. -/
theorem C9_queue_invariant (rl : RateLimiter) (now : Int)
    (hsort : rl.queue.Pairwise (· ≤ ·))
    (hlen : (rl.queue.length : Int) ≤ rl.max_requests)
    (hpast : ∀ t ∈ rl.queue, t ≤ now) :
    ((rl.in_memory_check now).1.queue.Pairwise (· ≤ ·) ∧
      ((rl.in_memory_check now).1.queue.length : Int) ≤ rl.max_requests ∧
      ∀ t ∈ (rl.in_memory_check now).1.queue, t ≤ now) ∧
    ((rl.in_memory_check now).2.isSome → (rl.in_memory_check now).1 = rl) ∧
    ((rl.in_memory_check now).2 = none →
      (rl.in_memory_check now).1.queue = evictOld rl.window_ms now rl.queue ++ [now]) := by
  have hsub : (evictOld rl.window_ms now rl.queue) <:+ rl.queue :=
    evictOld_suffix rl.window_ms now rl.queue
  have hsl := hsub.sublist
  have hsort' : (evictOld rl.window_ms now rl.queue).Pairwise (· ≤ ·) := hsort.sublist hsl
  have hmem : ∀ t ∈ evictOld rl.window_ms now rl.queue, t ∈ rl.queue := fun t ht => hsl.subset ht
  by_cases hge : ((evictOld rl.window_ms now rl.queue).length : Int) ≥ rl.max_requests
  · have hql : (evictOld rl.window_ms now rl.queue).length = rl.queue.length := by
      have h1 := hsl.length_le
      omega
    have heq : evictOld rl.window_ms now rl.queue = rl.queue := hsl.eq_of_length hql
    have hcheck : rl.in_memory_check now = (rl, some rateLimitMsg) := by
      simp only [RateLimiter.in_memory_check]
      rw [if_pos hge, heq]
    rw [hcheck]
    refine ⟨⟨hsort, hlen, hpast⟩, fun _ => rfl, fun h => by simp at h⟩
  · have hcheck : rl.in_memory_check now =
        ({ rl with queue := evictOld rl.window_ms now rl.queue ++ [now] }, none) := by
      simp only [RateLimiter.in_memory_check]
      rw [if_neg hge]
    rw [hcheck]
    refine ⟨⟨?_, ?_, ?_⟩, fun h => by simp at h, fun _ => rfl⟩
    · refine List.pairwise_append.mpr ⟨hsort', by simp, ?_⟩
      intro x hx y hy
      simp only [List.mem_singleton] at hy
      subst hy
      exact hpast x (hmem x hx)
    · simp only [List.length_append, List.length_singleton]
      push_cast
      omega
    · intro t ht
      rcases List.mem_append.mp ht with h | h
      · exact hpast t (hmem t h)
      · simp only [List.mem_singleton] at h
        subst h
        exact le_refl _

/-- C9 witness at `maxRequests = 2`, `windowMs = 1000`, queue `[5]`, clock
`10`. -/
theorem C9_witness :
    ((⟨2, 1000, [5]⟩ : RateLimiter).in_memory_check 10).1.queue.Pairwise (· ≤ ·) ∧
    (((⟨2, 1000, [5]⟩ : RateLimiter).in_memory_check 10).2 = none →
      ((⟨2, 1000, [5]⟩ : RateLimiter).in_memory_check 10).1.queue =
        evictOld 1000 10 [5] ++ [10]) :=
  ⟨(C9_queue_invariant ⟨2, 1000, [5]⟩ 10 (by simp) (by norm_num) (by decide)).1.1,
   (C9_queue_invariant ⟨2, 1000, [5]⟩ 10 (by simp) (by norm_num) (by decide)).2.2⟩

/-- A Python exception as seen by `safe_execute`: `except RuntimeError` is a
distinct catch clause, every other exception type is grouped as `otherError`.
The payload is `str(e)`. -/
inductive PyErr where
  | runtimeError (msg : String)
  | otherError (msg : String)
deriving Repr, DecidableEq

/-- Occurrence search underlying Python's `needle in hay`: does `needle`
occur as a contiguous run of `hay`? -/
def charListHas (needle : List Char) : List Char → Bool
  | [] => needle.isEmpty
  | c :: rest => needle.isPrefixOf (c :: rest) || charListHas needle rest

/-- Python `needle in hay` on strings. -/
def strContains (hay needle : String) : Bool :=
  charListHas needle.toList hay.toList

/-- Observable trace of one `safe_execute` invocation: its outcome, how many
times the Redis client was reinitialized, and how many times the wrapped
store operation was invoked. -/
structure SafeExecTrace (α : Type) where
  result : Except PyErr α
  reinits : Nat
  opCalls : Nat

/-- `RateLimiter.safe_execute` of `services/rate_limiter.py`.  The store round
trips are modelled by their outcomes: `firstCall` is what the first
`getattr(self.redis_client, method_name)(*args)` does, `reinit` is what
`redis_asyncio.from_url(...)` does, `secondCall` is what the retried call
does.  Only a `RuntimeError` whose message contains "closed" triggers the
reinitialize-and-retry path; a failing reinitialization raises that failure;
the retried call's outcome — success or any error — is returned unchanged. -/
def safe_execute {α : Type} (clientInitialized : Bool)
    (firstCall : Except PyErr α) (reinit : Except PyErr Unit)
    (secondCall : Except PyErr α) : SafeExecTrace α :=
  if clientInitialized then
    match firstCall with
    | .ok v => ⟨.ok v, 0, 1⟩
    | .error (.runtimeError m) =>
      if strContains m "closed" then
        match reinit with
        | .error e2 => ⟨.error e2, 1, 1⟩
        | .ok () =>
          match secondCall with
          | .ok v => ⟨.ok v, 1, 2⟩
          | .error e2 => ⟨.error e2, 1, 2⟩
      else ⟨.error (.runtimeError m), 0, 1⟩
    | .error (.otherError m) => ⟨.error (.otherError m), 0, 1⟩
  else ⟨.error (.otherError "Redis client not initialized"), 0, 0⟩

/-- The `try` block of the Redis path of `RateLimiter.check` in
`services/rate_limiter.py`: increment the window key, set its TTL when the
counter is fresh, raise the rate-limit error when the post-increment count
exceeds `max_requests`, otherwise return.  `incrRes` / `expireRes` are the
outcomes of the two (already `safe_execute`-wrapped) store calls. -/
def redisTryBlock (max_requests : Int) (incrRes : Except String Int)
    (expireRes : Except String Unit) : Except String Unit :=
  match incrRes with
  | .error e => .error e
  | .ok count =>
    match (if count = 1 then expireRes else .ok ()) with
    | .error e => .error e
    | .ok () =>
      if count > max_requests then .error rateLimitMsg else .ok ()

/-- The Redis path of `RateLimiter.check` in `services/rate_limiter.py`: run
the try block; on ANY exception — store transport errors and the quota
rejection alike, since the `raise` sits inside the `try` — log and fall back
to `_in_memory_check(now)`, whose own rejection (if any) propagates. -/
def RateLimiter.check_redis (rl : RateLimiter) (now : Int)
    (incrRes : Except String Int) (expireRes : Except String Unit) :
    RateLimiter × Option String :=
  match redisTryBlock rl.max_requests incrRes expireRes with
  | .ok () => (rl, none)
  | .error _ => rl.in_memory_check now

/-- C2 failing input: `maxRequests = 1`, the atomic post-increment returns
`2 > 1`, so the try block raises the rate-limit error — but `check()` catches
its own rejection in the `except Exception` clause and falls back to the
in-memory path, whose empty queue ADMITS the call: the store-path quota
rejection is silently converted into an admission, never surfaced. -/
theorem C2_rejection_swallowed :
    redisTryBlock 1 (.ok 2) (.ok ()) = .error rateLimitMsg ∧
    (⟨1, 60000, []⟩ : RateLimiter).check_redis 5000 (.ok 2) (.ok ()) =
      (⟨1, 60000, [5000]⟩, none) := by
  exact ⟨rfl, rfl⟩

/-- C4: whenever a store operation of the Redis path throws — the `incr`
itself, or the `expire` issued when the counter is fresh — `check()` does not
propagate the store error; the call is decided exactly by the in-memory
fallback, and the only error it can raise is the fallback's own rate-limit
rejection. -/
theorem C4_store_error_fallback (rl : RateLimiter) (now : Int) :
    (∀ msg expireRes,
      rl.check_redis now (.error msg) expireRes = rl.in_memory_check now) ∧
    (∀ msg, rl.check_redis now (.ok 1) (.error msg) = rl.in_memory_check now) ∧
    (∀ e, (rl.in_memory_check now).2 = some e → e = rateLimitMsg) := by
  refine ⟨fun msg expireRes => rfl, fun msg => rfl, fun e he => ?_⟩
  simp only [RateLimiter.in_memory_check] at he
  by_cases h : ((evictOld rl.window_ms now rl.queue).length : Int) ≥ rl.max_requests
  · rw [if_pos h] at he
    simpa using he.symm
  · rw [if_neg h] at he
    simp at he

/-- C4 witness: a store `incr` failing with "Connection closed" on a limiter
with room in its in-memory queue is admitted purely by the fallback. -/
theorem C4_witness :
    (⟨5, 60000, []⟩ : RateLimiter).check_redis 100 (.error "Connection closed") (.ok ()) =
      (⟨5, 60000, []⟩ : RateLimiter).in_memory_check 100 :=
  (C4_store_error_fallback ⟨5, 60000, []⟩ 100).1 "Connection closed" (.ok ())

/-- C5: `safe_execute` behaviour.  A first call failing with a `RuntimeError`
whose message contains "closed" causes exactly one reinitialization and
exactly one retry whose outcome — success or second failure — is returned
unchanged; a `RuntimeError` without "closed", or any non-`RuntimeError`
exception, propagates unchanged with no reinitialization and no retry; a
successful first call performs no reinitialization. -/
theorem C5_safe_execute_retry_once {α : Type} :
    (∀ (m : String) (second : Except PyErr α), strContains m "closed" = true →
      safe_execute true (.error (.runtimeError m)) (.ok ()) second =
        ⟨second, 1, 2⟩) ∧
    (∀ (m : String) (reinit : Except PyErr Unit) (second : Except PyErr α),
      strContains m "closed" = false →
      safe_execute true (.error (.runtimeError m)) reinit second =
        ⟨.error (.runtimeError m), 0, 1⟩) ∧
    (∀ (m : String) (reinit : Except PyErr Unit) (second : Except PyErr α),
      safe_execute true (.error (.otherError m)) reinit second =
        ⟨.error (.otherError m), 0, 1⟩) ∧
    (∀ (v : α) (reinit : Except PyErr Unit) (second : Except PyErr α),
      safe_execute true (.ok v) reinit second = ⟨.ok v, 0, 1⟩) := by
  refine ⟨?_, ?_, ?_, ?_⟩
  · intro m second hm
    simp only [safe_execute, if_true, hm]
    cases second with
    | ok v => rfl
    | error e => rfl
  · intro m reinit second hm
    simp [safe_execute, hm]
  · intro m reinit second
    rfl
  · intro v reinit second
    rfl

/-- C5 witness: a first call failing `RuntimeError("Connection closed")` is
reinitialized once and retried once (the retry's outcome returned unchanged,
both for a success and for a second failure), while a `RuntimeError` not
mentioning "closed" propagates unchanged without a retry. -/
theorem C5_witness :
    safe_execute true (.error (.runtimeError "Connection closed")) (.ok ())
        (.ok (7 : Nat)) = ⟨.ok 7, 1, 2⟩ ∧
    safe_execute true (.error (.runtimeError "Connection closed")) (.ok ())
        (.error (.otherError "boom") : Except PyErr Nat) =
      ⟨.error (.otherError "boom"), 1, 2⟩ ∧
    safe_execute true (.error (.runtimeError "timeout")) (.ok ())
        (.ok (7 : Nat)) = ⟨.error (.runtimeError "timeout"), 0, 1⟩ :=
  ⟨C5_safe_execute_retry_once.1 "Connection closed" (.ok 7) (by decide),
   C5_safe_execute_retry_once.1 "Connection closed" (.error (.otherError "boom")) (by decide),
   C5_safe_execute_retry_once.2.1 "timeout" (.ok ()) (.ok 7) (by decide)⟩

/-- The server-side Lua script of `_acquire_google_search_slot` in
`api/services/google_service.py`, one atomic evaluation: read the stored
`next_allowed` (0 when absent), and either return the remaining wait without
touching the key (`now < next_allowed`), or set the key to
`now + min_interval` and return 0.  Result: (stored value after the call,
returned wait_time).  Times are seconds (`time.time()`), modelled by `Rat`. -/
def acquireSlotScript (next_allowed now min_interval : Rat) : Rat × Rat :=
  if now < next_allowed then (next_allowed, next_allowed - now)
  else (now + min_interval, 0)

/-- The caller side of `_acquire_google_search_slot` (Redis path): evaluate
the script, sleep for the returned wait, then proceed.  The grant time — the
moment the caller resumes and issues its search — is `now + wait_time`. -/
def acquireSlotGrant (next_allowed now : Rat) : Rat :=
  now + (acquireSlotScript next_allowed now 1).2

/-- The stored `next_allowed` after one `_acquire_google_search_slot` call. -/
def acquireSlotState (next_allowed now : Rat) : Rat :=
  (acquireSlotScript next_allowed now 1).1

/-- C3 failing run: with the stored `next_allowed = 1.0` (set by an earlier
caller), two SUCCESSIVE script evaluations at `now = 0.5` and `now = 0.6`
both take the waiting branch, which returns the remaining wait WITHOUT
advancing `next_allowed`; both callers are granted at exactly `t = 1.0`, zero
seconds apart, and the shared state still reads `1.0`.  A waiting caller
never advances `nextAllowedTimestamp`, so grant times are neither pairwise
distinct nor spaced `minInterval` apart. -/
theorem C3_waiters_share_grant_time :
    acquireSlotGrant 1 (1/2) = 1 ∧
    acquireSlotState 1 (1/2) = 1 ∧
    acquireSlotGrant (acquireSlotState 1 (1/2)) (3/5) = 1 ∧
    acquireSlotState (acquireSlotState 1 (1/2)) (3/5) = 1 ∧
    acquireSlotGrant (acquireSlotState 1 (1/2)) (3/5) - acquireSlotGrant 1 (1/2) = 0 := by
  norm_num [acquireSlotGrant, acquireSlotState, acquireSlotScript]

/-- Raisable outcome of one attempt of `_search_with_retries`: the only
exceptions the loop distinguishes are an `HTTPError` carrying a 429 response;
everything else that the threadpool call raises is terminal. -/
inductive SearchErr where
  | http429
  | other (msg : String)
deriving Repr, DecidableEq

/-- Outcome of a single `search(...)` attempt in `_search_with_retries`. -/
inductive SearchOutcome where
  | ok (results : List String)
  | raised (e : SearchErr)
deriving Repr, DecidableEq

/-- Result of the whole `_search_with_retries` call. -/
inductive SearchResult where
  | success (results : List String)
  | failure (e : SearchErr)
  | fellThrough
deriving Repr, DecidableEq

/-- Observable trace of `_search_with_retries`: outcome, number of attempts
actually made, total seconds slept between attempts. -/
structure SearchTrace where
  result : SearchResult
  attemptsMade : Nat
  totalDelay : Nat
deriving Repr, DecidableEq

/-- The `for attempt in range(max_attempts)` loop of `_search_with_retries`
in `api/services/google_service.py`.  `f i` is the outcome of attempt `i`;
`n` counts the attempts still available (so `n = 0` inside an attempt means
it is the last one), `i` the attempts already made, `d` the current delay and
`acc` the accumulated sleep.  A 429 on a non-final attempt sleeps `d` and
doubles it; a 429 on the final attempt re-raises; any other exception
re-raises at once; loop exhaustion would return Python's `None`
(`fellThrough`). -/
def searchLoop (f : Nat → SearchOutcome) : Nat → Nat → Nat → Nat → SearchTrace
  | 0, i, _d, acc => ⟨.fellThrough, i, acc⟩
  | n + 1, i, d, acc =>
    match f i with
    | .ok rs => ⟨.success rs, i + 1, acc⟩
    | .raised .http429 =>
      if n = 0 then ⟨.failure .http429, i + 1, acc⟩
      else searchLoop f n (i + 1) (d * 2) (acc + d)
    | .raised (.other m) => ⟨.failure (.other m), i + 1, acc⟩

/-- `GoogleService._search_with_retries`: `max_attempts = 3`, initial
`delay = 1`. -/
def search_with_retries (f : Nat → SearchOutcome) : SearchTrace :=
  searchLoop f 3 0 1 0

/-- C6: the search retry policy.  429/429/success returns the success result
after delays 1s + 2s = 3s; three 429s propagate the 429 failure after the
same delays with no fourth attempt; a non-429 error on attempt 1, or on
attempt 2 after a 429, propagates at once with no further attempts; a retry
is performed only when the failed attempt was a 429 (every attempt beyond
the first exists only because the previous attempt raised 429). -/
theorem C6_search_retry_policy (f : Nat → SearchOutcome) :
    (∀ rs, f 0 = .raised .http429 → f 1 = .raised .http429 → f 2 = .ok rs →
      search_with_retries f = ⟨.success rs, 3, 3⟩) ∧
    ((∀ i < 3, f i = .raised .http429) →
      search_with_retries f = ⟨.failure .http429, 3, 3⟩) ∧
    (∀ m, f 0 = .raised (.other m) →
      search_with_retries f = ⟨.failure (.other m), 1, 0⟩) ∧
    (∀ m, f 0 = .raised .http429 → f 1 = .raised (.other m) →
      search_with_retries f = ⟨.failure (.other m), 2, 1⟩) ∧
    (∀ rs, f 0 = .ok rs → search_with_retries f = ⟨.success rs, 1, 0⟩) ∧
    (1 < (search_with_retries f).attemptsMade → f 0 = .raised .http429) ∧
    (2 < (search_with_retries f).attemptsMade → f 1 = .raised .http429) ∧
    (search_with_retries f).attemptsMade ≤ 3 := by
  refine ⟨?_, ?_, ?_, ?_, ?_, ?_, ?_, ?_⟩
  · intro rs h0 h1 h2
    simp [search_with_retries, searchLoop, h0, h1, h2]
  · intro h
    simp [search_with_retries, searchLoop, h 0 (by norm_num), h 1 (by norm_num),
      h 2 (by norm_num)]
  · intro m h0
    simp [search_with_retries, searchLoop, h0]
  · intro m h0 h1
    simp [search_with_retries, searchLoop, h0, h1]
  · intro rs h0
    simp [search_with_retries, searchLoop, h0]
  · intro h
    rcases h0 : f 0 with rs | e
    · simp [search_with_retries, searchLoop, h0] at h
    · rcases e with _ | m
      · rfl
      · simp [search_with_retries, searchLoop, h0] at h
  · intro h
    rcases h0 : f 0 with rs | e
    · simp [search_with_retries, searchLoop, h0] at h
    · rcases e with _ | m
      · rcases h1 : f 1 with rs1 | e1
        · simp [search_with_retries, searchLoop, h0, h1] at h
        · rcases e1 with _ | m1
          · rfl
          · simp [search_with_retries, searchLoop, h0, h1] at h
      · simp [search_with_retries, searchLoop, h0] at h
  · rcases h0 : f 0 with rs | e
    · simp [search_with_retries, searchLoop, h0]
    · rcases e with _ | m
      · rcases h1 : f 1 with rs1 | e1
        · simp [search_with_retries, searchLoop, h0, h1]
        · rcases e1 with _ | m1
          · rcases h2 : f 2 with rs2 | e2
            · simp [search_with_retries, searchLoop, h0, h1, h2]
            · cases e2 <;> simp [search_with_retries, searchLoop, h0, h1, h2]
          · simp [search_with_retries, searchLoop, h0, h1]
      · simp [search_with_retries, searchLoop, h0]

/-- C6 witness: two 429s then a success return the success after 3 seconds of
accumulated backoff; three 429s propagate the 429. -/
theorem C6_witness :
    search_with_retries
        (fun i => if i < 2 then .raised .http429 else .ok ["r"]) =
      ⟨.success ["r"], 3, 3⟩ ∧
    search_with_retries (fun _ => .raised .http429) = ⟨.failure .http429, 3, 3⟩ :=
  ⟨(C6_search_retry_policy (fun i => if i < 2 then .raised .http429 else .ok ["r"])).1
      ["r"] (by norm_num) (by norm_num) (by norm_num),
   (C6_search_retry_policy (fun _ => .raised .http429)).2.1 (fun i _ => rfl)⟩

/-- Classification of the Venice response content after the cleanup in
`WebService.summarize_text` (think-tag stripping, code-fence removal, JSON
parse): a parsed JSON object with the three expected keys (a non-list
`relatedURLs` already collapsed to `[]`), an unparseable raw content string,
or a response with no `choices`. -/
inductive VeniceBody where
  | parsed (summary : String) (isRelated : Bool) (urls : List String)
  | unparsed (raw : String)
  | noChoices
deriving Repr, DecidableEq

/-- Outcome of one `client.post` to the Venice API inside `summarize_text`:
a response with a status code, the optional parsed
`x-ratelimit-reset-requests` header and a body classification — or an
exception raised during the request. -/
inductive VeniceResp where
  | status (code : Int) (resetHdr : Option Rat) (body : VeniceBody)
  | exc (msg : String)
deriving Repr, DecidableEq

/-- Best-effort relatedness guess `query.lower() in text.lower()` used by
every degraded return of `summarize_text`. -/
def veniceGuess (text query : String) : Bool :=
  strContains text.toLower query.toLower

/-- The truncation `text = text[:MAX_TEXT_LENGTH_TO_SUMMARIZE]` applied
before the Venice call. -/
def veniceTruncate (text : String) (max_len : Nat) : String :=
  if max_len < text.length then text.take max_len else text

/-- Observable trace of `summarize_text`: the returned
(summary, isQueryRelated, relatedURLs) triple, attempts made, and total
seconds slept between attempts. -/
structure SummarizeTrace where
  result : String × Bool × List String
  attemptsMade : Nat
  totalDelay : Rat
deriving Repr, DecidableEq

/-- The `for attempt in range(max_attempts)` loop of
`WebService.summarize_text` (`text` here is already truncated): a 503 status
adopts the server-suggested delay when the header parses, then retries on a
non-final attempt and returns the service-unavailable sentinel on the final
one; a 400 returns the bad-request sentinel at once; any other error status
(via `raise_for_status`) or exception returns the generic error sentinel; a
2xx/3xx response is decided by its body classification.  Loop exhaustion
(unreachable with `max_attempts = 3`) would return the final fallback
sentinel. -/
def summarizeLoop (text query : String) (f : Nat → VeniceResp) :
    Nat → Nat → Rat → Rat → SummarizeTrace
  | 0, i, _d, acc =>
    ⟨("Unable to generate summary after multiple attempts", veniceGuess text query, []), i, acc⟩
  | n + 1, i, d, acc =>
    match f i with
    | .exc _ => ⟨("Error generating summary", veniceGuess text query, []), i + 1, acc⟩
    | .status code hdr body =>
      if code = 503 then
        let d1 := match hdr with | some r => r | none => d
        if n = 0 then
          ⟨("Service unavailable, summary not generated", veniceGuess text query, []), i + 1, acc⟩
        else summarizeLoop text query f n (i + 1) (d1 * 2) (acc + d1)
      else if code = 400 then
        ⟨("Bad request, summary not generated", veniceGuess text query, []), i + 1, acc⟩
      else if 400 ≤ code then
        if code = 503 ∧ 0 < n then summarizeLoop text query f n (i + 1) (d * 2) (acc + d)
        else ⟨("Error generating summary", veniceGuess text query, []), i + 1, acc⟩
      else
        match body with
        | .parsed s rel urls => ⟨(s, rel, urls), i + 1, acc⟩
        | .unparsed raw => ⟨(raw.take 1000, veniceGuess text query, []), i + 1, acc⟩
        | .noChoices => ⟨("", false, []), i + 1, acc⟩

/-- `WebService.summarize_text`: reject short text, truncate, respect the
Venice rate limiter (a rejection is converted into a degraded result), then
run the retry loop with `max_attempts = 3`, `delay = 1`. -/
def summarize_text (text query : String) (max_len : Nat) (rlOk : Bool)
    (f : Nat → VeniceResp) : SummarizeTrace :=
  if text.length < 20 then ⟨("", false, []), 0, 0⟩
  else
    if rlOk then summarizeLoop (veniceTruncate text max_len) query f 3 0 1 0
    else ⟨("Rate limit exceeded, summary unavailable",
            veniceGuess (veniceTruncate text max_len) query, []), 0, 0⟩

/-- C7: summarization degradation.  An HTTP 400 on the first attempt is
terminal: the bad-request sentinel triple is returned immediately, with zero
accumulated delay and no further attempts.  And when every one of the three
attempts returns 503, the loop exhausts into the degraded-but-successful
service-unavailable sentinel (with the best-effort relatedness guess) instead
of propagating an error, after exactly three attempts. -/
theorem C7_summarize_degraded (text query : String) (max_len : Nat)
    (f : Nat → VeniceResp) (h20 : 20 ≤ text.length) :
    (∀ hdr body, f 0 = .status 400 hdr body →
      summarize_text text query max_len true f =
        ⟨("Bad request, summary not generated",
          veniceGuess (veniceTruncate text max_len) query, []), 1, 0⟩) ∧
    ((∀ i, i < 3 → ∃ hdr body, f i = .status 503 hdr body) →
      (summarize_text text query max_len true f).result =
        ("Service unavailable, summary not generated",
          veniceGuess (veniceTruncate text max_len) query, []) ∧
      (summarize_text text query max_len true f).attemptsMade = 3) := by
  have hlen : ¬ (text.length < 20) := by omega
  constructor
  · intro hdr body h0
    simp [summarize_text, hlen, summarizeLoop, h0]
  · intro hall
    obtain ⟨hdr0, body0, h0⟩ := hall 0 (by norm_num)
    obtain ⟨hdr1, body1, h1⟩ := hall 1 (by norm_num)
    obtain ⟨hdr2, body2, h2⟩ := hall 2 (by norm_num)
    cases hdr0 <;> cases hdr1 <;>
      simp [summarize_text, hlen, summarizeLoop, h0, h1, h2]

/-- C7 witness: a 400 on attempt 1 is terminal with no delay; three 503s end
in the service-unavailable sentinel after three attempts. -/
theorem C7_witness :
    summarize_text "abcdefghijklmnopqrstuvwxyz" "q" 5000 true
        (fun _ => .status 400 none .noChoices) =
      ⟨("Bad request, summary not generated",
        veniceGuess (veniceTruncate "abcdefghijklmnopqrstuvwxyz" 5000) "q", []), 1, 0⟩ ∧
    (summarize_text "abcdefghijklmnopqrstuvwxyz" "q" 5000 true
        (fun _ => .status 503 none .noChoices)).result =
      ("Service unavailable, summary not generated",
        veniceGuess (veniceTruncate "abcdefghijklmnopqrstuvwxyz" 5000) "q", []) :=
  ⟨(C7_summarize_degraded "abcdefghijklmnopqrstuvwxyz" "q" 5000
      (fun _ => .status 400 none .noChoices) (by decide)).1 none .noChoices rfl,
   ((C7_summarize_degraded "abcdefghijklmnopqrstuvwxyz" "q" 5000
      (fun _ => .status 503 none .noChoices) (by decide)).2
      (fun i _ => ⟨none, .noChoices, rfl⟩)).1⟩

/-- A URL as seen through `urlparse`: the raw string plus its parsed scheme
and network location, which is all `scrape_urls` inspects before scraping. -/
structure Url where
  raw : String
  scheme : String
  netloc : String
deriving Repr, DecidableEq

/-- `WebService._is_valid_url`: `bool(parsed.scheme and parsed.netloc)` —
valid iff both the scheme and the host are non-empty. -/
def is_valid_url (u : Url) : Bool :=
  decide (u.scheme ≠ "") && decide (u.netloc ≠ "")

/-- One result record of `scrape_urls` (the dict shape produced for every
URL). -/
structure ScrapeRecord where
  url : String
  status : Int
  error : String
  title : String
  metaDescription : String
  textPreview : String
  fullText : String
  Summary : String
  IsQueryRelated : Bool
  relatedURLs : List String
deriving Repr, DecidableEq

/-- Outcome of `_scrape_single_url` for one URL inside its semaphore slot:
a returned record, a raised exception, or a hang that trips the 20 s
per-URL `asyncio.wait_for`. -/
inductive ScrapeOutcome where
  | ok (rec : ScrapeRecord)
  | raises (msg : String)
  | hangs
deriving Repr, DecidableEq

/-- The record built by the rate-limited early return of `scrape_urls`. -/
def rateLimitRecord (u : Url) : ScrapeRecord :=
  ⟨u.raw, 0, "Rate limit exceeded", "", "", "", "", "", false, []⟩

/-- The record substituted by `sem_scrape` when the per-URL 20 s timeout
fires. -/
def urlTimeoutRecord (u : Url) : ScrapeRecord :=
  ⟨u.raw, 0, "Scraping timed out after 20 seconds",
   "Content from " ++ u.netloc ++ " (Timeout)", "", "", "",
   "Scraping timed out", false, []⟩

/-- The record substituted by `sem_scrape` when `_scrape_single_url`
raises. -/
def urlErrorRecord (u : Url) (msg : String) : ScrapeRecord :=
  ⟨u.raw, 0, "Scraping failed: " ++ msg,
   "Content from " ++ u.netloc ++ " (Error)", "", "", "",
   "Error scraping content: " ++ msg, false, []⟩

/-- The record built for every retained URL when the whole batch
`asyncio.wait_for` times out. -/
def batchTimeoutRecord (u : Url) : ScrapeRecord :=
  ⟨u.raw, 0, "Batch processing timed out",
   "Content from " ++ u.netloc ++ " (Batch Timeout)", "", "", "",
   "Processing timed out", false, []⟩

/-- The record built for every retained URL when the gather raises some other
exception. -/
def batchErrorRecord (msg : String) (u : Url) : ScrapeRecord :=
  ⟨u.raw, 0, "Batch processing error: " ++ msg,
   "Content from " ++ u.netloc ++ " (Error)", "", "", "",
   "Error: " ++ msg, false, []⟩

/-- `sem_scrape`: run one URL under the semaphore, converting a hang into the
timeout record and an exception into the error record — never re-raising. -/
def sem_scrape (u : Url) : ScrapeOutcome → ScrapeRecord
  | .ok rec => rec
  | .raises msg => urlErrorRecord u msg
  | .hangs => urlTimeoutRecord u

/-- The response-size limiting applied to each record of a completed batch:
summaries over 1000 chars and full texts over 5000 chars are truncated with
an ellipsis. -/
def trimRecord (r : ScrapeRecord) : ScrapeRecord :=
  let r1 := if 1000 < r.Summary.length
    then { r with Summary := r.Summary.take 1000 ++ "..." } else r
  if 5000 < r1.fullText.length
    then { r1 with fullText := r1.fullText.take 5000 ++ "..." } else r1

/-- How the batch-level `asyncio.wait_for(asyncio.gather(...))` resolves:
all per-URL tasks complete, the batch timeout fires, or the gather raises
some other exception. -/
inductive BatchEnv where
  | completed
  | timedOut
  | raisedBatch (msg : String)
deriving Repr, DecidableEq

/-- `WebService.scrape_urls`.  `rlErr` is the outcome of
`self.rate_limiter.check()` (`some e` when it raised), `outcome` gives each
URL's `_scrape_single_url` behaviour, `env` how the batch await resolves.
A rate-limit rejection short-circuits into minimal error records for the
first 5 REQUESTED urls; otherwise invalid URLs are filtered out, an empty
remainder returns `[]`, at most the first 10 valid URLs are scraped, and
every resolution path returns one structured record per retained URL —
never an exception. -/
def scrape_urls (urls : List Url) (outcome : Url → ScrapeOutcome)
    (env : BatchEnv) (rlErr : Option String) : List ScrapeRecord :=
  match rlErr with
  | some _ => (urls.take 5).map rateLimitRecord
  | none =>
    let valid := urls.filter is_valid_url
    if valid.isEmpty then []
    else
      let retained := if 10 < valid.length then valid.take 10 else valid
      match env with
      | .completed => retained.map (fun u => trimRecord (sem_scrape u (outcome u)))
      | .timedOut => retained.map batchTimeoutRecord
      | .raisedBatch m => retained.map (batchErrorRecord m)

/-- The URLs actually scraped by an admitted `scrape_urls` call: the valid
ones, capped at the first 10. -/
def validRetained (urls : List Url) : List Url :=
  if 10 < (urls.filter is_valid_url).length then (urls.filter is_valid_url).take 10
  else urls.filter is_valid_url

theorem validRetained_length (urls : List Url) :
    (validRetained urls).length = min (urls.filter is_valid_url).length 10 := by
  unfold validRetained
  split <;> simp [List.length_take] <;> omega

theorem scrape_urls_as_map (urls : List Url) (outcome : Url → ScrapeOutcome) (m : String) :
    scrape_urls urls outcome .completed none =
      (validRetained urls).map (fun u => trimRecord (sem_scrape u (outcome u))) ∧
    scrape_urls urls outcome .timedOut none = (validRetained urls).map batchTimeoutRecord ∧
    scrape_urls urls outcome (.raisedBatch m) none =
      (validRetained urls).map (batchErrorRecord m) := by
  unfold scrape_urls validRetained
  by_cases he : (urls.filter is_valid_url).isEmpty
  · have hnil : urls.filter is_valid_url = [] := List.isEmpty_iff.mp he
    simp [he, hnil]
  · simp [he]

/-- C8 counterexample to the claim as stated: an admitted batch containing
one requested URL that fails validation returns an EMPTY result list — zero
records — not "exactly one result record per requested URL". -/
theorem C8_counterexample :
    scrape_urls [⟨"bad", "", ""⟩] (fun _ => .hangs) .completed none = [] ∧
    ([(⟨"bad", "", ""⟩ : Url)]).length = 1 := by
  exact ⟨rfl, rfl⟩

/-- C8 (amended): for every batch ADMITTED by the rate limiter, `scrape_urls`
returns (without ever raising — the embedding is a total function into a
record list) exactly one structured record per VALID requested URL up to the
first 10 valid ones, on every resolution path; on a completed batch the
record of each retained URL is computed from that URL's own outcome alone
(`map` over the retained list), a hung URL yielding the per-URL timeout
record and a raising URL the per-URL error record while sibling records
carry their own outcomes; and a full-batch timeout yields one structured
batch-timeout entry per retained URL. -/
theorem C8_per_item_records (urls : List Url) (outcome : Url → ScrapeOutcome) (m : String) :
    (scrape_urls urls outcome .completed none =
      (validRetained urls).map (fun u => trimRecord (sem_scrape u (outcome u)))) ∧
    ((scrape_urls urls outcome .completed none).length = (validRetained urls).length ∧
     (scrape_urls urls outcome .timedOut none).length = (validRetained urls).length ∧
     (scrape_urls urls outcome (.raisedBatch m) none).length = (validRetained urls).length) ∧
    (∀ u, outcome u = .hangs → sem_scrape u (outcome u) = urlTimeoutRecord u ∧
      (urlTimeoutRecord u).error = "Scraping timed out after 20 seconds") ∧
    (∀ u e, outcome u = .raises e → sem_scrape u (outcome u) = urlErrorRecord u e) ∧
    (∀ u rec, outcome u = .ok rec → sem_scrape u (outcome u) = rec) ∧
    (∀ r ∈ scrape_urls urls outcome .timedOut none,
      r.error = "Batch processing timed out") := by
  obtain ⟨h1, h2, h3⟩ := scrape_urls_as_map urls outcome m
  refine ⟨h1, ⟨by rw [h1, List.length_map], by rw [h2, List.length_map],
    by rw [h3, List.length_map]⟩, ?_, ?_, ?_, ?_⟩
  · intro u hu
    rw [hu]
    exact ⟨rfl, rfl⟩
  · intro u e hu
    rw [hu]
    rfl
  · intro u rec hu
    rw [hu]
    rfl
  · intro r hr
    rw [h2] at hr
    obtain ⟨u, _hu, hru⟩ := List.mem_map.mp hr
    rw [← hru]
    rfl

/-- C8 witness: a completed two-URL batch where the first URL hangs and the
second returns a real record produces exactly those two records in order. -/
theorem C8_witness :
    scrape_urls [⟨"http://a", "http", "a"⟩, ⟨"http://b", "http", "b"⟩]
        (fun u => if u.raw = "http://a" then .hangs
                  else .ok ⟨u.raw, 200, "", "B", "", "", "", "ok", true, []⟩)
        .completed none =
      [trimRecord (urlTimeoutRecord ⟨"http://a", "http", "a"⟩),
       trimRecord ⟨"http://b", 200, "", "B", "", "", "", "ok", true, []⟩] := by
  rw [(C8_per_item_records [⟨"http://a", "http", "a"⟩, ⟨"http://b", "http", "b"⟩]
      (fun u => if u.raw = "http://a" then .hangs
                else .ok ⟨u.raw, 200, "", "B", "", "", "", "ok", true, []⟩) "m").1]
  rfl

/-- C10 counterexample to the claim as stated: when the rate limiter rejects
the call, `scrape_urls` returns one minimal error record per REQUESTED URL
(capped at 5), so an input consisting of a single invalid URL yields 1 record
— not fewer than the requested count, and the invalid URL is not dropped. -/
theorem C10_counterexample :
    scrape_urls [⟨"not a url", "", ""⟩] (fun _ => .hangs) .completed (some rateLimitMsg) =
      [rateLimitRecord ⟨"not a url", "", ""⟩] ∧
    is_valid_url ⟨"not a url", "", ""⟩ = false ∧
    (scrape_urls [⟨"not a url", "", ""⟩] (fun _ => .hangs) .completed
        (some rateLimitMsg)).length = ([(⟨"not a url", "", ""⟩ : Url)]).length := by
  exact ⟨rfl, rfl, rfl⟩

/-- C10 (amended): for every `scrape_urls` call ADMITTED by the rate
limiter, URLs failing validation are silently dropped before scraping and at
most the first 10 valid URLs are scraped: the result has exactly
`min(#valid, 10)` records, hence at most 10, and strictly fewer records than
requested items whenever the input contains an invalid URL or more than 10
valid ones. -/
theorem C10_invalid_dropped_and_capped (urls : List Url) (outcome : Url → ScrapeOutcome)
    (env : BatchEnv) :
    (scrape_urls urls outcome env none).length = min (urls.filter is_valid_url).length 10 ∧
    (scrape_urls urls outcome env none).length ≤ 10 ∧
    ((∃ u ∈ urls, is_valid_url u = false) ∨ 10 < (urls.filter is_valid_url).length →
      (scrape_urls urls outcome env none).length < urls.length) := by
  have hlen : (scrape_urls urls outcome env none).length =
      min (urls.filter is_valid_url).length 10 := by
    cases env with
    | completed =>
      rw [(scrape_urls_as_map urls outcome "m").1, List.length_map, validRetained_length]
    | timedOut =>
      rw [(scrape_urls_as_map urls outcome "m").2.1, List.length_map, validRetained_length]
    | raisedBatch m =>
      rw [(scrape_urls_as_map urls outcome m).2.2, List.length_map, validRetained_length]
  have hfle : (urls.filter is_valid_url).length ≤ urls.length := List.length_filter_le _ _
  refine ⟨hlen, by omega, ?_⟩
  rintro (⟨u, hu, hv⟩ | hgt)
  · have hflt : (urls.filter is_valid_url).length < urls.length := by
      apply List.length_filter_lt_length_iff_exists.mpr
      exact ⟨u, hu, by simp [hv]⟩
    omega
  · omega

/-- C10 witness: an admitted batch of one invalid and one valid URL returns
strictly fewer records than the two requested. -/
theorem C10_witness :
    (scrape_urls [⟨"bad", "", ""⟩, ⟨"http://a", "http", "a"⟩] (fun _ => .hangs)
        .completed none).length < 2 := by
  have h := (C10_invalid_dropped_and_capped
      [⟨"bad", "", ""⟩, ⟨"http://a", "http", "a"⟩] (fun _ => .hangs) .completed).2.2
      (Or.inl ⟨⟨"bad", "", ""⟩, by simp, rfl⟩)
  simpa using h
